import Mathlib

/-! Shallow embedding of `src/visualization.py` from the spending-habits
visualization repository: the color mapper (server-side Python and the
client-side JavaScript twin embedded in the aggregator page), the building
height estimator, the spending aggregator, the per-slice scale-range
computation, the cache-load path of `get_buildings_data`, and the city-entry
assembly of `get_city_coords`.  Machine floats are modelled by `ℚ`; code
paths that raise in Python return `none`; the ambient `np.random.uniform`
generator is an explicit oracle parameter. -/

/-- Model of Python `int(x)` applied to a numeric value: truncation toward
zero. -/
def pyInt (x : ℚ) : ℤ := if 0 ≤ x then ⌊x⌋ else -⌊-x⌋

/-- Model of `get_heatmap_color` (visualization.py lines 165-186).  The Python
body divides by `max_percentage - min_percentage` with no guard, so a zero
window raises `ZeroDivisionError`, modelled as `none`; otherwise the
five-stop gradient value is returned. -/
def get_heatmap_color (percentage min_percentage max_percentage : ℚ) : Option (List ℤ) :=
  if max_percentage - min_percentage = 0 then none
  else
    let normalized := (percentage - min_percentage) / (max_percentage - min_percentage)
    if normalized < 0.25 then some [0, pyInt (normalized * 4 * 255) + 200, 200]
    else if normalized < 0.5 then some [0, 255, pyInt ((0.5 - normalized) * 4 * 255)]
    else if normalized < 0.75 then some [pyInt ((normalized - 0.5) * 4 * 255), 255, 0]
    else some [255, pyInt ((1 - normalized) * 4 * 255), 0]

/-- Model of the client-side JavaScript `getHeatmapColor` embedded in the
aggregator page (visualization.py lines 537-565).  Unlike the Python twin it
guards `maxIntensity === minIntensity` by setting `normalized = 0.5`, and it
uses `Math.floor`. -/
def getHeatmapColor (intensity minIntensity maxIntensity : ℚ) : List ℤ :=
  let normalized := if maxIntensity = minIntensity then (0.5 : ℚ)
    else (intensity - minIntensity) / (maxIntensity - minIntensity)
  if normalized < 0.25 then [0, ⌊normalized * 4 * 255⌋ + 200, 200]
  else if normalized < 0.5 then [0, 255, ⌊(0.5 - normalized) * 4 * 255⌋]
  else if normalized < 0.75 then [⌊(normalized - 0.5) * 4 * 255⌋, 255, 0]
  else [255, ⌊(1 - normalized) * 4 * 255⌋, 0]

/-- Decimal digits to the natural number they denote, most significant
first. -/
def digitsToNat (l : List Char) : ℕ :=
  l.foldl (fun n c => 10 * n + (c.toNat - 48)) 0

/-- Model of the decimal-literal fragment of Python `float(str)`: an optional
sign, then digits with an optional decimal point (`"4"`, `"4."`, `".5"`,
`"3.25"`).  Exponents, `inf`/`nan` and digit underscores lie outside the
fragment the program's tag data uses and parse to `none`, as does every
other malformed string (Python raises `ValueError` there). -/
def pyFloatChars (cs0 : List Char) : Option ℚ :=
  let signAndRest : ℚ × List Char :=
    match cs0 with
    | '-' :: rest => (-1, rest)
    | '+' :: rest => (1, rest)
    | _ => (1, cs0)
  let sign := signAndRest.1
  let cs := signAndRest.2
  let intPart := cs.takeWhile Char.isDigit
  let rest := cs.dropWhile Char.isDigit
  match rest with
  | [] => if intPart.isEmpty then none else some (sign * (digitsToNat intPart : ℚ))
  | '.' :: fracRest =>
    let fracPart := fracRest.takeWhile Char.isDigit
    let rest2 := fracRest.dropWhile Char.isDigit
    if rest2.isEmpty then
      if intPart.isEmpty && fracPart.isEmpty then none
      else some (sign * ((digitsToNat intPart : ℚ) +
        (digitsToNat fracPart : ℚ) / (10 : ℚ) ^ fracPart.length))
    else none
  | _ => none

/-- Occurrences of `pat` removed left to right, with the initial list length
as structural fuel (enough fuel, since each step consumes at least one
character). -/
def removeSubstrFuel (pat : List Char) : ℕ → List Char → List Char
  | 0, _ => []
  | _ + 1, [] => []
  | fuel + 1, c :: cs =>
    if pat.isPrefixOf (c :: cs) && !pat.isEmpty then
      removeSubstrFuel pat fuel ((c :: cs).drop pat.length)
    else
      c :: removeSubstrFuel pat fuel cs

/-- Python `s.replace(pat, "")` on character lists. -/
def removeSubstr (pat : List Char) (l : List Char) : List Char :=
  removeSubstrFuel pat l.length l

/-- Python `str.strip()` on a character list. -/
def trimChars (l : List Char) : List Char :=
  ((l.dropWhile Char.isWhitespace).reverse.dropWhile Char.isWhitespace).reverse

/-- Python `float(s)` on a string (which itself ignores surrounding
whitespace), over the decimal-literal fragment of `pyFloatChars`. -/
def pyFloat (s : String) : Option ℚ := pyFloatChars (trimChars s.toList)

/-- The height-tag parse inside `estimate_building_height` (visualization.py
line 40): `float(height_str.replace("m", "").replace("ft", "").strip())`,
with `none` in place of a raised `ValueError`. -/
def parse_height (s : String) : Option ℚ :=
  pyFloatChars (trimChars (removeSubstr ['f', 't'] (removeSubstr ['m'] s.toList)))

/-- A building's tag data as consumed by `estimate_building_height`: each
field is `some` when the column is present with a non-NaN value (the Python
code tests `"height" in building and pd.notna(building["height"])`), `none`
otherwise. -/
structure Building where
  height? : Option String
  levels? : Option String
  btype? : Option String
  deriving DecidableEq

/-- The building-type stage of `estimate_building_height` (visualization.py
lines 53-78).  `rand a b` is the oracle for `np.random.uniform(a, b)`. -/
def height_from_type (rand : ℚ → ℚ → ℚ) (b : Building) : ℚ :=
  let building_type := b.btype?.getD "yes"
  if building_type ∈ ["commercial", "office", "retail", "hotel", "apartments"] then rand 20 40
  else if building_type ∈ ["industrial", "warehouse", "school", "hospital", "public"] then rand 10 20
  else if building_type ∈ ["house", "residential", "detached", "terrace", "bungalow"] then rand 5 12
  else if building_type ∈ ["garage", "shed", "cabin", "hut", "roof"] then rand 3 6
  else if building_type ∈ ["church", "cathedral", "mosque", "temple", "shrine"] then rand 15 30
  else rand 8 18

/-- The levels stage of `estimate_building_height` (visualization.py lines
46-51), falling through to the type stage when the levels tag is absent or
`float` raises on it. -/
def height_from_levels_or_type (rand : ℚ → ℚ → ℚ) (b : Building) : ℚ :=
  match b.levels? with
  | some ls =>
    match pyFloat ls with
    | some levels => levels * 3.5
    | none => height_from_type rand b
  | none => height_from_type rand b

/-- Model of `estimate_building_height` (visualization.py lines 30-78).  When
the explicit height tag parses, the code returns `height if height > 0 else
15`; only a parse failure falls through to the levels stage. -/
def estimate_building_height (rand : ℚ → ℚ → ℚ) (b : Building) : ℚ :=
  match b.height? with
  | some hs =>
    match parse_height hs with
    | some height => if 0 < height then height else 15
    | none => height_from_levels_or_type rand b
  | none => height_from_levels_or_type rand b

/-- One row of the preprocessed transaction frame as the aggregator consumes
it: the `City`, `Exp Type`, `Amount` and precomputed `YearQuarter` columns. -/
structure Txn where
  city : String
  expType : String
  amount : ℚ
  yearQuarter : String
  deriving DecidableEq

/-- City → value rows of an aggregation table (a Python dict in insertion
order). -/
abbrev CityRow := List (String × ℚ)

/-- Category → city row (a Python dict in insertion order). -/
abbrev CatTable := List (String × CityRow)

/-- Quarter → category table (a Python dict in insertion order). -/
abbrev QTable := List (String × CatTable)

/-- Python dict indexing `d[k]` for tables represented as key-value lists in
insertion order; faithful whenever the keys are distinct. -/
def dictLookup {β : Type} (k : String) : List (String × β) → Option β
  | [] => none
  | (k', v) :: rest => if k = k' then some v else dictLookup k rest

/-- Sequencing of fallible per-element computations over a list: `none` as
soon as any element raises, mirroring exception propagation out of a Python
loop. -/
def listMapM {α β : Type} (f : α → Option β) : List α → Option (List β)
  | [] => some []
  | a :: l =>
    match f a, listMapM f l with
    | some b, some bs => some (b :: bs)
    | _, _ => none

/-- First-occurrence distinct values, as `pandas.Series.unique` returns
them. -/
def uniqueAux : List String → List String → List String
  | [], _ => []
  | x :: xs, seen => if x ∈ seen then uniqueAux xs seen else x :: uniqueAux xs (x :: seen)

/-- `df["Exp Type"].unique()` over the whole (unfiltered) frame
(visualization.py line 151). -/
def uniqueExpTypes (df : List Txn) : List String :=
  uniqueAux (df.map Txn.expType) []

/-- The quarter filter (visualization.py lines 131-134): the whole frame for
`"All Time"`, otherwise the rows whose `YearQuarter` label matches. -/
def quarter_df (df : List Txn) (quarter : String) : List Txn :=
  if quarter = "All Time" then df else df.filter (fun t => t.yearQuarter == quarter)

/-- `city_data["Amount"].sum()`. -/
def amount_sum (rows : List Txn) : ℚ := (rows.map Txn.amount).sum

/-- Per-city quarter total (visualization.py lines 139-141). -/
def total_spending (df : List Txn) (quarter city : String) : ℚ :=
  amount_sum ((quarter_df df quarter).filter (fun t => t.city == city))

/-- One (category, city) cell (visualization.py lines 155-160): the filtered
spending together with `(spending / total) * 100`, where a zero city total
makes the Python division raise `ZeroDivisionError`, modelled as `none`. -/
def category_city_percentage (qdf : List Txn) (total : ℚ) (category city : String) :
    Option (ℚ × ℚ) :=
  let spending := amount_sum ((qdf.filter (fun t => t.city == city)).filter
    (fun t => t.expType == category))
  if total = 0 then none else some (spending, spending / total * 100)

/-- The per-category city loop (visualization.py lines 154-160). -/
def category_rows (qdf : List Txn) (totals : String → ℚ) (cities : List String)
    (category : String) : Option (List (String × (ℚ × ℚ))) :=
  listMapM (fun city =>
    (category_city_percentage qdf (totals city) category city).map (fun p => (city, p))) cities

/-- One quarter of `calculate_spending_by_category_and_quarter`
(visualization.py lines 126-160): the `"All Categories"` rows are written
first (percentage `100.0` unconditionally), then one row per distinct
`Exp Type` value, spending table paired with percentage table. -/
def quarter_tables (df : List Txn) (cities : List String) (quarter : String) :
    Option (CatTable × CatTable) :=
  (listMapM (fun category =>
      (category_rows (quarter_df df quarter) (fun city => total_spending df quarter city)
        cities category).map (fun r => (category, r)))
    (uniqueExpTypes df)).map
  (fun rows =>
    (("All Categories", cities.map (fun city => (city, total_spending df quarter city))) ::
       rows.map (fun cr => (cr.1, cr.2.map (fun p => (p.1, p.2.1)))),
     ("All Categories", cities.map (fun city => (city, (100 : ℚ)))) ::
       rows.map (fun cr => (cr.1, cr.2.map (fun p => (p.1, p.2.2))))))

/-- Model of `calculate_spending_by_category_and_quarter` (visualization.py
lines 115-162), returning the spending table and the percentage table, or
`none` when the Python function raises. -/
def calculate_spending_by_category_and_quarter (df : List Txn) (cities quarters : List String) :
    Option (QTable × QTable) :=
  (listMapM (fun quarter =>
      (quarter_tables df cities quarter).map (fun e => (quarter, e))) quarters).map
  (fun qs => (qs.map (fun qe => (qe.1, qe.2.1)), qs.map (fun qe => (qe.1, qe.2.2))))

/-- Python `min` over a list (raises on `[]`; the model's empty-list value is
only reached under a nonempty hypothesis). -/
def list_min : List ℚ → ℚ
  | [] => 0
  | x :: xs => xs.foldl min x

/-- Python `max` over a list (raises on `[]`). -/
def list_max : List ℚ → ℚ
  | [] => 0
  | x :: xs => xs.foldl max x

/-- The per-(quarter, category) scale window of `generate_citymaps`
(visualization.py lines 267-281): the mean plus and minus `1.0`, widened to
the data minimum and maximum when more extreme. -/
def scale_range (percentage_values : List ℚ) : ℚ × ℚ :=
  let avg_percentage := percentage_values.sum / (percentage_values.length : ℚ)
  let min_percentage := avg_percentage - 1
  let max_percentage := avg_percentage + 1
  (min (list_min percentage_values) min_percentage,
   max (list_max percentage_values) max_percentage)

/-- Python list slicing `l[:stop]` with a possibly negative stop index. -/
def pySlice {α : Type} (l : List α) (stop : ℤ) : List α :=
  if 0 ≤ stop then l.take stop.toNat
  else l.take (l.length - (-stop).toNat)

/-- The per-city building cap applied when assembling a city entry
(visualization.py line 241):
`city_buildings[:min(len(city_buildings) - 1, 20000)]`. -/
def city_buildings_subset {α : Type} (l : List α) : List α :=
  pySlice l (min ((l.length : ℤ) - 1) 20000)

/-- One element of the `city_coords` list built by `get_city_coords`
(visualization.py lines 242-248). -/
structure CityEntry (α : Type) where
  name : String
  lat : ℚ
  lon : ℚ
  buildings : List α
  index : ℕ
  deriving DecidableEq

/-- The geocoding step of `get_city_coords` (visualization.py lines 226-239):
the provider result is an oracle (`none` models a raised exception, handled
as `(0.0, 0.0)`), and the two hardcoded overrides apply after a successful
lookup. -/
def city_coord (geocode : String → Option (ℚ × ℚ)) (city_name : String) : ℚ × ℚ :=
  match geocode city_name with
  | some (lat, lon) =>
    if city_name = "Ahmedabad, India" then (23.021537, 72.580057)
    else if city_name = "Delhi, India" then (28.6448, 77.2164)
    else (lat, lon)
  | none => (0, 0)

/-- Model of `get_city_coords` (visualization.py lines 220-249).  The Python
function reads the module-level `buildings_data` global; it is threaded here
as an explicit parameter.  City names are paired positionally with
`buildings_data[:len(city_names)]` by `zip` and enumerated. -/
def get_city_coords {α : Type} (geocode : String → Option (ℚ × ℚ))
    (city_names : List String) (buildings_data : List (List α)) : List (CityEntry α) :=
  ((city_names.zip (buildings_data.take city_names.length)).enum).map
    (fun ie =>
      { name := ie.2.1
        lat := (city_coord geocode ie.2.1).1
        lon := (city_coord geocode ie.2.1).2
        buildings := city_buildings_subset ie.2.2
        index := ie.1 })

/-- Stable insertion before the first strictly shorter building list, the
building block of a stable descending sort by list length. -/
def insertByLen {α : Type} (x : String × List α) :
    List (String × List α) → List (String × List α)
  | [] => [x]
  | y :: ys => if y.2.length ≤ x.2.length then x :: y :: ys else y :: insertByLen x ys

/-- Stable sort of (name, buildings) pairs by descending building-list
length, the effect of
`city_building_pairs.sort(key=lambda x: len(x[1]), reverse=True)`
(visualization.py line 107). -/
def sortByLenDesc {α : Type} (l : List (String × List α)) : List (String × List α) :=
  l.foldr insertByLen []

/-- Model of the cache-load branch of `get_buildings_data` (visualization.py
lines 102-112): the cached blob is zipped with the city names, the pairs are
sorted by descending building-list length, and only the reordered building
lists are returned.  On an empty pair list the Python unpacking
`zip(*city_building_pairs)` raises, modelled as `none`. -/
def get_buildings_data {α : Type} (city_names : List String) (cached : List (List α)) :
    Option (List (List α)) :=
  let city_building_pairs := city_names.zip cached
  if city_building_pairs.isEmpty then none
  else some ((sortByLenDesc city_building_pairs).map (fun p => p.2))

theorem pyInt_nonneg {x : ℚ} (hx : 0 ≤ x) : 0 ≤ pyInt x := by
  unfold pyInt
  rw [if_pos hx]
  exact Int.floor_nonneg.mpr hx

theorem pyInt_le_of_le {x : ℚ} {n : ℤ} (hx : 0 ≤ x) (h : x ≤ (n : ℚ)) : pyInt x ≤ n := by
  unfold pyInt
  rw [if_pos hx]
  exact_mod_cast le_trans (Int.floor_le x) h

theorem pyInt_lt_of_lt {x : ℚ} {n : ℤ} (hx : 0 ≤ x) (h : x < (n : ℚ)) : pyInt x < n := by
  unfold pyInt
  rw [if_pos hx]
  exact Int.floor_lt.mpr h

unseal Rat.add Rat.mul Rat.sub Rat.inv Rat.ofScientific in
/-- C1: the claim reads `get_heatmap_color(value, m, m)` does not raise and
returns the `t = 0.5` color `[0, 255, 0]`.  The Python `get_heatmap_color`
has no guard on `max_percentage - min_percentage` and raises
`ZeroDivisionError` (modelled: `none`); the intended behavior is implemented
only by the embedded client-side `getHeatmapColor`, which the page requires
to match the server formula and which indeed returns `[0, 255, 0]`. -/
theorem heatmap_c1_minmax_bug :
    get_heatmap_color 5 5 5 = none ∧ getHeatmapColor 5 5 5 = [0, 255, 0] := by
  decide

unseal Rat.add Rat.mul Rat.sub Rat.inv Rat.ofScientific in
/-- C2: counterexample to "each of the three components returned by
`get_heatmap_color(value, min, max)` is an integer in the range [0, 255]"
for `min < max` and `min ≤ value ≤ max`: at `value = 1`, `min = 0`,
`max = 10` (so `t = 0.1 < 0.25`) the green component is
`int(0.1 * 4 * 255) + 200 = 302 > 255`. -/
theorem heatmap_c2_counterexample :
    (0 : ℚ) < 10 ∧ (0 : ℚ) ≤ 1 ∧ (1 : ℚ) ≤ 10 ∧
    get_heatmap_color 1 0 10 = some [0, 302, 200] ∧ ¬ ((302 : ℤ) ≤ 255) := by
  decide

/-- C2 (amended): for `min < max` and `min ≤ value ≤ max`,
`get_heatmap_color` returns three integers with the red and blue components
in [0, 255] and the green component in [0, 454]; green exceeds 255 on part
of the first gradient segment. -/
theorem heatmap_c2_amended (v m M : ℚ) (h1 : m < M) (h2 : m ≤ v) (h3 : v ≤ M) :
    ∃ r g b : ℤ, get_heatmap_color v m M = some [r, g, b] ∧
      0 ≤ r ∧ r ≤ 255 ∧ 0 ≤ g ∧ g ≤ 454 ∧ 0 ≤ b ∧ b ≤ 255 := by
  have hMm : (0 : ℚ) < M - m := by linarith
  have hne : M - m ≠ 0 := ne_of_gt hMm
  have ht0 : 0 ≤ (v - m) / (M - m) := div_nonneg (by linarith) (le_of_lt hMm)
  have ht1 : (v - m) / (M - m) ≤ 1 := (div_le_one hMm).mpr (by linarith)
  simp only [get_heatmap_color]
  rw [if_neg hne]
  set t := (v - m) / (M - m) with hT
  split_ifs with ha hb hc
  · have hg0 : 0 ≤ t * 4 * 255 := by nlinarith
    have hg1 : pyInt (t * 4 * 255) < 255 := by
      apply pyInt_lt_of_lt hg0
      push_cast
      nlinarith
    have hg2 : 0 ≤ pyInt (t * 4 * 255) := pyInt_nonneg hg0
    exact ⟨0, pyInt (t * 4 * 255) + 200, 200, rfl, le_refl 0, by norm_num,
      by omega, by omega, by norm_num, by norm_num⟩
  · have hb0 : 0 ≤ (0.5 - t) * 4 * 255 := by nlinarith
    have hb1 : pyInt ((0.5 - t) * 4 * 255) ≤ 255 := by
      apply pyInt_le_of_le hb0
      push_cast
      nlinarith
    have hb2 : 0 ≤ pyInt ((0.5 - t) * 4 * 255) := pyInt_nonneg hb0
    exact ⟨0, 255, pyInt ((0.5 - t) * 4 * 255), rfl, le_refl 0, by norm_num,
      by norm_num, by norm_num, hb2, hb1⟩
  · have hr0 : 0 ≤ (t - 0.5) * 4 * 255 := by nlinarith
    have hr1 : pyInt ((t - 0.5) * 4 * 255) < 255 := by
      apply pyInt_lt_of_lt hr0
      push_cast
      nlinarith
    have hr2 : 0 ≤ pyInt ((t - 0.5) * 4 * 255) := pyInt_nonneg hr0
    exact ⟨pyInt ((t - 0.5) * 4 * 255), 255, 0, rfl, hr2, by omega,
      by norm_num, by norm_num, le_refl 0, by norm_num⟩
  · have hg0 : 0 ≤ (1 - t) * 4 * 255 := by nlinarith
    have hg1 : pyInt ((1 - t) * 4 * 255) ≤ 255 := by
      apply pyInt_le_of_le hg0
      push_cast
      nlinarith
    have hg2 : 0 ≤ pyInt ((1 - t) * 4 * 255) := pyInt_nonneg hg0
    exact ⟨255, pyInt ((1 - t) * 4 * 255), 0, rfl, by norm_num, le_refl 255,
      hg2, by omega, le_refl 0, by norm_num⟩

/-- C2 (amended) witness at `value = 0`, `min = 0`, `max = 1`. -/
theorem heatmap_c2_amended_witness :
    ∃ r g b : ℤ, get_heatmap_color 0 0 1 = some [r, g, b] ∧
      0 ≤ r ∧ r ≤ 255 ∧ 0 ≤ g ∧ g ≤ 454 ∧ 0 ≤ b ∧ b ≤ 255 :=
  heatmap_c2_amended 0 0 1 (by norm_num) (by norm_num) (by norm_num)

unseal Rat.add Rat.mul Rat.sub Rat.inv Rat.ofScientific in
/-- C4: counterexample to "a height tag that parses to a value ≤ 0 falls
through to the levels rule": with `height = "0"` and
`building:levels = "4"` the code returns `15` (the `else 15` arm of
`return height if height > 0 else 15`), not the claimed `4 × 3.5 = 14.0`. -/
theorem height_c4_counterexample :
    estimate_building_height (fun a _ => a) ⟨some "0", some "4", none⟩ = 15 ∧
    ((15 : ℚ) ≠ 14) := by
  refine ⟨by rfl, by norm_num⟩

unseal Rat.add Rat.mul Rat.sub Rat.inv Rat.ofScientific in
/-- C4 (amended): when the explicit height tag fails to parse, the estimator
falls through to the levels stage without raising, and with
`building:levels = "4"` it returns `14.0`; but when the height tag parses to
a value ≤ 0, the estimator returns `15` instead of falling through. -/
theorem height_c4_amended (rand : ℚ → ℚ → ℚ) (b : Building) :
    (∀ hs, b.height? = some hs → parse_height hs = none →
      (estimate_building_height rand b = height_from_levels_or_type rand b ∧
        (b.levels? = some "4" → estimate_building_height rand b = 14))) ∧
    (∀ hs h, b.height? = some hs → parse_height hs = some h → h ≤ 0 →
      estimate_building_height rand b = 15) := by
  constructor
  · intro hs hh hp
    have h1 : estimate_building_height rand b = height_from_levels_or_type rand b := by
      simp only [estimate_building_height, hh, hp]
    refine ⟨h1, ?_⟩
    intro hl
    have h4 : pyFloat "4" = some 4 := by rfl
    rw [h1]
    simp only [height_from_levels_or_type, hl, h4]
    norm_num
  · intro hs h hh hp hle
    simp only [estimate_building_height, hh, hp]
    rw [if_neg (not_lt.mpr hle)]

/-- C4 (amended) witness: the malformed height tag `"abcm"` with
`building:levels = "4"` returns `14.0`. -/
theorem height_c4_amended_witness :
    parse_height "abcm" = none ∧
    estimate_building_height (fun a _ => a) ⟨some "abcm", some "4", none⟩ = 14 :=
  ⟨by decide,
   ((height_c4_amended (fun a _ => a) ⟨some "abcm", some "4", none⟩).1 "abcm" rfl
     (by decide)).2 rfl⟩

unseal Rat.add Rat.mul Rat.sub Rat.inv Rat.ofScientific in
/-- C5: counterexample to "estimate_building_height returns a strictly
positive value for every tag set": with no height tag and
`building:levels = "0"` the levels rule returns `0 * 3.5 = 0`. -/
theorem height_c5_counterexample :
    estimate_building_height (fun a _ => a) ⟨none, some "0", none⟩ = 0 ∧
    ¬ (0 < (0 : ℚ)) := by
  refine ⟨by rfl, by norm_num⟩

/-- C5 (amended): the estimator returns a strictly positive value provided
the uniform draw respects its lower bound and, whenever the levels rule
fires, the parsed levels value is positive; the unguarded `levels * 3.5`
path is the only way to produce a nonpositive height. -/
theorem height_c5_amended (rand : ℚ → ℚ → ℚ) (hrand : ∀ a b : ℚ, a ≤ rand a b)
    (b : Building) (hlev : ∀ ls lv, b.levels? = some ls → pyFloat ls = some lv → 0 < lv) :
    0 < estimate_building_height rand b := by
  have htype : 0 < height_from_type rand b := by
    simp only [height_from_type]
    split_ifs
    · exact lt_of_lt_of_le (by norm_num) (hrand 20 40)
    · exact lt_of_lt_of_le (by norm_num) (hrand 10 20)
    · exact lt_of_lt_of_le (by norm_num) (hrand 5 12)
    · exact lt_of_lt_of_le (by norm_num) (hrand 3 6)
    · exact lt_of_lt_of_le (by norm_num) (hrand 15 30)
    · exact lt_of_lt_of_le (by norm_num) (hrand 8 18)
  have hlevels : 0 < height_from_levels_or_type rand b := by
    cases hls : b.levels? with
    | none => simp only [height_from_levels_or_type, hls]; exact htype
    | some ls =>
      cases hlv : pyFloat ls with
      | none => simp only [height_from_levels_or_type, hls, hlv]; exact htype
      | some lv =>
        simp only [height_from_levels_or_type, hls, hlv]
        exact mul_pos (hlev ls lv hls hlv) (by norm_num)
  cases hh : b.height? with
  | none => simp only [estimate_building_height, hh]; exact hlevels
  | some hs =>
    cases hp : parse_height hs with
    | none => simp only [estimate_building_height, hh, hp]; exact hlevels
    | some hgt =>
      simp only [estimate_building_height, hh, hp]
      split_ifs with h0
      · exact h0
      · norm_num

/-- C5 (amended) witness at tag set `building = "house"` with the draw fixed
to the range's lower endpoint. -/
theorem height_c5_amended_witness :
    0 < estimate_building_height (fun a _ => a) ⟨none, none, some "house"⟩ :=
  height_c5_amended (fun a _ => a) (fun a _ => le_refl a) ⟨none, none, some "house"⟩
    (fun _ _ h _ => Option.noConfusion h)

theorem foldl_min_le_init (xs : List ℚ) (a : ℚ) : xs.foldl min a ≤ a := by
  induction xs generalizing a with
  | nil => exact le_refl a
  | cons x xs ih =>
    rw [List.foldl_cons]
    exact le_trans (ih (min a x)) (min_le_left a x)

theorem foldl_min_le_mem : ∀ (xs : List ℚ) (a v : ℚ), v ∈ xs → xs.foldl min a ≤ v
  | x :: xs, a, v, hv => by
    rw [List.foldl_cons]
    rcases List.mem_cons.mp hv with rfl | h
    · exact le_trans (foldl_min_le_init xs (min a v)) (min_le_right a v)
    · exact foldl_min_le_mem xs (min a x) v h

theorem init_le_foldl_max (xs : List ℚ) (a : ℚ) : a ≤ xs.foldl max a := by
  induction xs generalizing a with
  | nil => exact le_refl a
  | cons x xs ih =>
    rw [List.foldl_cons]
    exact le_trans (le_max_left a x) (ih (max a x))

theorem mem_le_foldl_max : ∀ (xs : List ℚ) (a v : ℚ), v ∈ xs → v ≤ xs.foldl max a
  | x :: xs, a, v, hv => by
    rw [List.foldl_cons]
    rcases List.mem_cons.mp hv with rfl | h
    · exact le_trans (le_max_right a v) (init_le_foldl_max xs (max a v))
    · exact mem_le_foldl_max xs (max a x) v h

theorem list_min_le {l : List ℚ} {v : ℚ} (hv : v ∈ l) : list_min l ≤ v := by
  cases l with
  | nil => cases hv
  | cons x xs =>
    simp only [list_min]
    rcases List.mem_cons.mp hv with rfl | h
    · exact foldl_min_le_init xs v
    · exact foldl_min_le_mem xs x v h

theorem le_list_max {l : List ℚ} {v : ℚ} (hv : v ∈ l) : v ≤ list_max l := by
  cases l with
  | nil => cases hv
  | cons x xs =>
    simp only [list_max]
    rcases List.mem_cons.mp hv with rfl | h
    · exact init_le_foldl_max xs v
    · exact mem_le_foldl_max xs x v h

/-- C9: for every non-empty list of per-city percentage values, the scale
window of `generate_citymaps` contains every value and is at least `2.0`
wide: `min = min(data_min, mean - 1)` and `max = max(data_max, mean + 1)`. -/
theorem scalerange_c9_bounds (percentage_values : List ℚ) (h : percentage_values ≠ []) :
    (∀ v ∈ percentage_values,
      (scale_range percentage_values).1 ≤ v ∧ v ≤ (scale_range percentage_values).2) ∧
    2 ≤ (scale_range percentage_values).2 - (scale_range percentage_values).1 := by
  simp only [scale_range]
  constructor
  · intro v hv
    exact ⟨le_trans (min_le_left _ _) (list_min_le hv),
      le_trans (le_list_max hv) (le_max_left _ _)⟩
  · have h1 : min (list_min percentage_values)
        (percentage_values.sum / (percentage_values.length : ℚ) - 1) ≤
        percentage_values.sum / (percentage_values.length : ℚ) - 1 := min_le_right _ _
    have h2 : percentage_values.sum / (percentage_values.length : ℚ) + 1 ≤
        max (list_max percentage_values)
          (percentage_values.sum / (percentage_values.length : ℚ) + 1) := le_max_right _ _
    linarith

/-- C9 witness at the spec's example slice `[10, 12, 50]`. -/
theorem scalerange_c9_bounds_witness :
    (∀ v ∈ [(10 : ℚ), 12, 50],
      (scale_range [(10 : ℚ), 12, 50]).1 ≤ v ∧ v ≤ (scale_range [(10 : ℚ), 12, 50]).2) ∧
    2 ≤ (scale_range [(10 : ℚ), 12, 50]).2 - (scale_range [(10 : ℚ), 12, 50]).1 :=
  scalerange_c9_bounds [(10 : ℚ), 12, 50] (by simp)

theorem snd_mem_of_mem_enumFrom {α : Type} :
    ∀ {l : List α} {n : ℕ} {p : ℕ × α}, p ∈ l.enumFrom n → p.2 ∈ l
  | x :: xs, n, p, h => by
    simp only [List.enumFrom] at h
    rcases List.mem_cons.mp h with rfl | h'
    · exact List.mem_cons_self _ _
    · exact List.mem_cons_of_mem _ (snd_mem_of_mem_enumFrom h')

theorem snd_mem_of_mem_enum {α : Type} {l : List α} {p : ℕ × α} (h : p ∈ l.enum) :
    p.2 ∈ l :=
  snd_mem_of_mem_enumFrom h

theorem length_city_buildings_subset {α : Type} (l : List α) :
    ((city_buildings_subset l).length : ℤ) = min (max ((l.length : ℤ) - 1) 0) 20000 := by
  cases l with
  | nil =>
    simp only [city_buildings_subset, pySlice, List.length_nil]
    norm_num
  | cons x xs =>
    simp only [city_buildings_subset, pySlice, List.length_cons]
    have h0 : (0 : ℤ) ≤ min (((xs.length + 1 : ℕ) : ℤ) - 1) 20000 := by
      push_cast
      omega
    rw [if_pos h0, List.length_take]
    simp only [List.length_cons]
    push_cast
    omega

unseal Rat.add Rat.mul Rat.sub Rat.inv Rat.ofScientific in
/-- C6: counterexample to "the CityEntry retains at most
min(list length − 1, 20000) buildings from the list, including the empty
list": for the empty building list the entry retains 0 buildings, while
`min(0 - 1, 20000) = -1`, and `0 ≤ -1` is false (Python's slice `l[:-1]` on
an empty list yields `[]`, not a negative count). -/
theorem citycap_c6_counterexample :
    ((get_city_coords (fun _ => none) ["A"] [([] : List ℕ)]).map
      (fun e => e.buildings.length)) = [0] ∧
    ¬ ((0 : ℤ) ≤ min ((([] : List ℕ).length : ℤ) - 1) 20000) := by
  refine ⟨by rfl, by decide⟩

/-- C6 (amended): every CityEntry assembled by `get_city_coords` holds
`city_buildings_subset` of some input building list, whose length is exactly
`min(max(len - 1, 0), 20000)`; in particular the claimed
`min(len - 1, 20000)` bound holds for non-empty lists, while the empty list
retains 0 buildings. -/
theorem citycap_c6_amended {α : Type} (geocode : String → Option (ℚ × ℚ))
    (city_names : List String) (buildings_data : List (List α)) (e : CityEntry α)
    (he : e ∈ get_city_coords geocode city_names buildings_data) :
    ∃ l ∈ buildings_data, e.buildings = city_buildings_subset l ∧
      ((e.buildings.length : ℤ) = min (max ((l.length : ℤ) - 1) 0) 20000) := by
  simp only [get_city_coords] at he
  rcases List.mem_map.mp he with ⟨p, hp, rfl⟩
  have hmem : p.2 ∈ city_names.zip (buildings_data.take city_names.length) :=
    snd_mem_of_mem_enum hp
  have hl : p.2.2 ∈ buildings_data :=
    List.take_subset _ _ (List.of_mem_zip hmem).2
  exact ⟨p.2.2, hl, rfl, length_city_buildings_subset p.2.2⟩

unseal Rat.add Rat.mul Rat.sub Rat.inv Rat.ofScientific in
/-- C6 (amended) witness: the two-building list `[5, 6]` yields an entry
retaining exactly `min(2 - 1, 20000) = 1` building. -/
theorem citycap_c6_amended_witness :
    ((⟨"A", 0, 0, [5], 0⟩ : CityEntry ℕ) ∈
      get_city_coords (fun _ => none) ["A"] [[5, 6]]) ∧
    (∃ l ∈ [[(5 : ℕ), 6]], (⟨"A", 0, 0, [5], 0⟩ : CityEntry ℕ).buildings =
        city_buildings_subset l ∧
      ((((⟨"A", 0, 0, [5], 0⟩ : CityEntry ℕ).buildings.length) : ℤ) =
        min (max ((l.length : ℤ) - 1) 0) 20000)) :=
  ⟨by decide, citycap_c6_amended (fun _ => none) ["A"] [[5, 6]] ⟨"A", 0, 0, [5], 0⟩
    (by decide)⟩

theorem mem_insertByLen {α : Type} (x z : String × List α) :
    ∀ (l : List (String × List α)), z ∈ insertByLen x l ↔ z = x ∨ z ∈ l
  | [] => by simp [insertByLen]
  | y :: ys => by
    simp only [insertByLen]
    by_cases h : y.2.length ≤ x.2.length
    · rw [if_pos h]
      simp [or_comm, or_assoc, or_left_comm]
    · rw [if_neg h]
      simp only [List.mem_cons, mem_insertByLen x z ys]
      tauto

theorem pairwise_insertByLen {α : Type} (x : String × List α) :
    ∀ (l : List (String × List α)),
      l.Pairwise (fun a b => b.2.length ≤ a.2.length) →
      (insertByLen x l).Pairwise (fun a b => b.2.length ≤ a.2.length)
  | [], _ => by simp [insertByLen]
  | y :: ys, hl => by
    rcases List.pairwise_cons.mp hl with ⟨hy, hys⟩
    simp only [insertByLen]
    by_cases h : y.2.length ≤ x.2.length
    · rw [if_pos h]
      refine List.pairwise_cons.mpr ⟨?_, hl⟩
      intro z hz
      rcases List.mem_cons.mp hz with rfl | hz'
      · exact h
      · exact le_trans (hy z hz') h
    · rw [if_neg h]
      refine List.pairwise_cons.mpr ⟨?_, pairwise_insertByLen x ys hys⟩
      intro z hz
      rcases (mem_insertByLen x z ys).mp hz with rfl | hz'
      · exact le_of_not_le h
      · exact hy z hz'

theorem pairwise_sortByLenDesc {α : Type} :
    ∀ (l : List (String × List α)),
      (sortByLenDesc l).Pairwise (fun a b => b.2.length ≤ a.2.length)
  | [] => by simp [sortByLenDesc]
  | x :: xs => by
    simp only [sortByLenDesc, List.foldr_cons]
    exact pairwise_insertByLen x _ (pairwise_sortByLenDesc xs)

/-- C7: when the cached blob holds one building list per input city name (and
whenever the cache-load path returns at all), the returned sequence of
building lists is sorted in non-increasing order of list length. -/
theorem cacheload_c7_sorted {α : Type} (city_names : List String)
    (cached : List (List α)) (hlen : cached.length = city_names.length)
    (res : List (List α)) (hres : get_buildings_data city_names cached = some res) :
    res.Pairwise (fun A B => B.length ≤ A.length) := by
  simp only [get_buildings_data] at hres
  by_cases hemp : (city_names.zip cached).isEmpty
  · rw [if_pos hemp] at hres
    cases hres
  · rw [if_neg hemp] at hres
    injection hres with hres
    rw [← hres, List.pairwise_map]
    exact pairwise_sortByLenDesc _

/-- C7 witness: two cached lists of lengths 0 and 1. -/
theorem cacheload_c7_sorted_witness :
    ([[], [(0 : ℕ)]] : List (List ℕ)).length = (["x", "y"]).length ∧
    ([[(0 : ℕ)], []] : List (List ℕ)).Pairwise (fun A B => B.length ≤ A.length) :=
  ⟨rfl, cacheload_c7_sorted ["x", "y"] [[], [0]] rfl [[0], []] (by decide)⟩

unseal Rat.add Rat.mul Rat.sub Rat.inv Rat.ofScientific in
/-- C10: on a cache load with blob `[[1], [2, 3]]` for cities `["A", "B"]`
(distinct lengths, not already in descending order), `get_buildings_data`
returns only the length-sorted lists `[[2, 3], [1]]`; `get_city_coords` then
zips the original city-name list with them positionally, so the entry named
`"A"` holds building `2`, which was cached for `"B"` (`2 ∈ [2, 3]`) and not
for `"A"` (`2 ∉ [1]`). -/
theorem cache_mismatch_c10 :
    get_buildings_data ["A", "B"] [[(1 : ℕ)], [2, 3]] = some [[2, 3], [1]] ∧
    ((get_city_coords (fun _ => none) ["A", "B"]
        ((get_buildings_data ["A", "B"] [[(1 : ℕ)], [2, 3]]).getD [])).map
      (fun e => (e.name, e.buildings))) = [("A", [2]), ("B", [])] ∧
    (2 : ℕ) ∈ [2, 3] ∧ (2 : ℕ) ∉ [1] := by
  refine ⟨by rfl, by rfl, by decide, by decide⟩

theorem listMapM_eq_none {α β : Type} (f : α → Option β) {l : List α} {a : α}
    (ha : a ∈ l) (hfa : f a = none) : listMapM f l = none := by
  induction l with
  | nil => cases ha
  | cons x xs ih =>
    rcases List.mem_cons.mp ha with rfl | h
    · cases hrest : listMapM f xs <;> simp [listMapM, hfa, hrest]
    · cases hfx : f x <;> simp [listMapM, hfx, ih h]

theorem dictLookup_map_value {β γ : Type} (f : β → γ) (q : String) :
    ∀ (l : List (String × β)),
      dictLookup q (l.map (fun p => (p.1, f p.2))) = (dictLookup q l).map f
  | [] => rfl
  | (k, v) :: rest => by
    simp only [List.map_cons, dictLookup]
    by_cases h : q = k
    · rw [if_pos h, if_pos h, Option.map_some']
    · rw [if_neg h, if_neg h, dictLookup_map_value f q rest]

theorem dictLookup_const (v : ℚ) (city : String) :
    ∀ (cities : List String), city ∈ cities →
      dictLookup city (cities.map (fun c => (c, v))) = some v
  | [], h => by cases h
  | c :: cs, h => by
    simp only [List.map_cons, dictLookup]
    by_cases hc : city = c
    · rw [if_pos hc]
    · rw [if_neg hc]
      refine dictLookup_const v city cs ?_
      rcases List.mem_cons.mp h with h' | h'
      · exact absurd h' hc
      · exact h'

theorem listMapM_pairs_lookup {β : Type} (g : String → Option β) :
    ∀ (l : List String) (res : List (String × β)),
      listMapM (fun a => (g a).map (fun b => (a, b))) l = some res →
      ∀ q, q ∈ l → ∃ e, g q = some e ∧ dictLookup q res = some e
  | [], _, _, _, hq => by cases hq
  | x :: xs, res, h, q, hq => by
    simp only [listMapM] at h
    cases hgx : g x with
    | none =>
      rw [hgx] at h
      simp at h
    | some bx =>
      rw [hgx] at h
      simp only [Option.map_some'] at h
      cases hrest : listMapM (fun a => (g a).map (fun b => (a, b))) xs with
      | none =>
        rw [hrest] at h
        simp at h
      | some bs =>
        rw [hrest] at h
        have hres : res = (x, bx) :: bs := by
          injection h with h'
          exact h'.symm
        subst hres
        by_cases hqx : q = x
        · subst hqx
          exact ⟨bx, hgx, by simp [dictLookup]⟩
        · have hmem : q ∈ xs := by
            rcases List.mem_cons.mp hq with h' | h'
            · exact absurd h' hqx
            · exact h'
          obtain ⟨e, hge, hlk⟩ := listMapM_pairs_lookup g xs bs hrest q hmem
          refine ⟨e, hge, ?_⟩
          simp only [dictLookup, if_neg hqx]
          exact hlk

unseal Rat.add Rat.mul Rat.sub Rat.inv Rat.ofScientific in
/-- C3: counterexample to "when a city's total spend for a quarter is zero,
the aggregator still completes without raising and stores a NaN/undefined
sentinel": city `"A"` has zero total for `"All Time"` while the frame has
the category `"food"`, and the Python division
`(spending / total_spending[city]) * 100` raises `ZeroDivisionError`
(modelled: the aggregator returns `none`, no table is produced). -/
theorem aggregator_c3_counterexample :
    total_spending [⟨"B", "food", 5, "2020-Q1"⟩] "All Time" "A" = 0 ∧
    calculate_spending_by_category_and_quarter
      [⟨"B", "food", 5, "2020-Q1"⟩] ["A"] ["All Time"] = none := by
  refine ⟨by rfl, by rfl⟩

/-- C3 (amended): when some city's total for some requested quarter is zero
and the frame has at least one category, the aggregator raises (returns
`none`); no sentinel entry is produced. -/
theorem aggregator_c3_amended (df : List Txn) (cities quarters : List String)
    (q city : String) (hq : q ∈ quarters) (hc : city ∈ cities)
    (h0 : total_spending df q city = 0) (hcats : uniqueExpTypes df ≠ []) :
    calculate_spending_by_category_and_quarter df cities quarters = none := by
  obtain ⟨cat, hcat⟩ := List.exists_mem_of_ne_nil _ hcats
  have h1 : category_city_percentage (quarter_df df q) (total_spending df q city)
      cat city = none := by
    simp only [category_city_percentage]
    rw [if_pos h0]
  have h2 : category_rows (quarter_df df q) (fun c => total_spending df q c)
      cities cat = none := by
    unfold category_rows
    exact listMapM_eq_none _ hc (by rw [h1, Option.map_none'])
  have h3 : quarter_tables df cities q = none := by
    unfold quarter_tables
    rw [listMapM_eq_none _ hcat (by rw [h2, Option.map_none']), Option.map_none']
  unfold calculate_spending_by_category_and_quarter
  rw [listMapM_eq_none _ hq (by rw [h3, Option.map_none']), Option.map_none']

unseal Rat.add Rat.mul Rat.sub Rat.inv Rat.ofScientific in
/-- C3 (amended) witness: city `"C"` with zero total, one observed
category. -/
theorem aggregator_c3_amended_witness :
    ("All Time" ∈ ["All Time"]) ∧ ("C" ∈ ["C"]) ∧
    total_spending [⟨"D", "grocery", 7, "2021-Q2"⟩] "All Time" "C" = 0 ∧
    uniqueExpTypes [⟨"D", "grocery", 7, "2021-Q2"⟩] ≠ [] ∧
    calculate_spending_by_category_and_quarter
      [⟨"D", "grocery", 7, "2021-Q2"⟩] ["C"] ["All Time"] = none :=
  ⟨by decide, by decide, by rfl, by decide,
   aggregator_c3_amended [⟨"D", "grocery", 7, "2021-Q2"⟩] ["C"] ["All Time"]
     "All Time" "C" (by decide) (by decide) (by rfl) (by decide)⟩

/-- C8: whenever the aggregator completes (it returns `some` tables) and no
observed category is itself literally named `"All Categories"` (so the
insertion-ordered lists coincide with Python dicts), the `"All Categories"`
percentage entry of every requested quarter is exactly `100.0` for every
requested city — including quarters in which a city's total spend is zero,
which complete exactly when the frame has no individual categories. -/
theorem allcategories_c8_hundred (df : List Txn) (cities quarters : List String)
    (sp pct : QTable) (hAC : "All Categories" ∉ df.map Txn.expType)
    (h : calculate_spending_by_category_and_quarter df cities quarters = some (sp, pct))
    (quarter city : String) (hq : quarter ∈ quarters) (hc : city ∈ cities) :
    ∃ ct, dictLookup quarter pct = some ct ∧
      ∃ row, dictLookup "All Categories" ct = some row ∧
        dictLookup city row = some 100 := by
  unfold calculate_spending_by_category_and_quarter at h
  obtain ⟨qs, hqs, hpair⟩ := Option.map_eq_some'.mp h
  have hpct : pct = qs.map (fun qe => (qe.1, qe.2.2)) := (congrArg Prod.snd hpair).symm
  obtain ⟨e, he, hlk⟩ := listMapM_pairs_lookup
    (fun q' => quarter_tables df cities q') quarters qs hqs quarter hq
  have hpl : dictLookup quarter pct = some e.2 := by
    rw [hpct, dictLookup_map_value (fun x => x.2) quarter qs, hlk, Option.map_some']
  unfold quarter_tables at he
  obtain ⟨rows, _, hrowseq⟩ := Option.map_eq_some'.mp he
  have he2 : e.2 = ("All Categories", cities.map (fun city => (city, (100 : ℚ)))) ::
      rows.map (fun cr => (cr.1, cr.2.map (fun p => (p.1, p.2.2)))) :=
    (congrArg Prod.snd hrowseq).symm
  refine ⟨e.2, hpl, cities.map (fun city => (city, (100 : ℚ))), ?_,
    dictLookup_const 100 city cities hc⟩
  rw [he2]
  simp [dictLookup]

unseal Rat.add Rat.mul Rat.sub Rat.inv Rat.ofScientific in
/-- C8 witness on an empty frame with one city: the quarter total is zero,
the aggregator completes (no individual category triggers the division), and
the `"All Categories"` entry is exactly `100.0`. -/
theorem allcategories_c8_hundred_witness :
    calculate_spending_by_category_and_quarter [] ["A"] ["All Time"] =
      some ([("All Time", [("All Categories", [("A", (0 : ℚ))])])],
            [("All Time", [("All Categories", [("A", (100 : ℚ))])])]) ∧
    ∃ ct, dictLookup "All Time"
        [("All Time", [("All Categories", [("A", (100 : ℚ))])])] = some ct ∧
      ∃ row, dictLookup "All Categories" ct = some row ∧
        dictLookup "A" row = some 100 := by
  have hcalc : calculate_spending_by_category_and_quarter [] ["A"] ["All Time"] =
      some ([("All Time", [("All Categories", [("A", (0 : ℚ))])])],
            [("All Time", [("All Categories", [("A", (100 : ℚ))])])]) := by rfl
  exact ⟨hcalc, allcategories_c8_hundred [] ["A"] ["All Time"] _ _ (by decide) hcalc
    "All Time" "A" (by decide) (by decide)⟩
